import Mathlib

/-!
Verification development for the sentinel-py multi-protocol probe engine.

Shallow embedding of the probe engine:
* `scanner/utils/rate_limiter.py` — `RateLimiter` (delay, jitter), `wait`,
  `from_preset`;
* `scanner/modules.py` — `create_rate_limiter`, `run_selected_modules`;
* `scanner/models/ports.py` — `PortResult`, `PortScanResults`;
* `scanner/core/scanner.py` — per-port TCP probe and range scan;
* `scanner/core/http.py` — HTTP probe loop and server identification;
* `scanner/core/ssl.py` — TLS certificate probe, certificate date parsing.

Numbers: Python floats for delays are modelled as rationals (the values in
play are exact decimals); epoch timestamps as integers (seconds).
Network and randomness are oracles passed in as explicit arguments.
Logging is modelled as a returned list of messages where a claim needs it.
-/

namespace Sentinel

/-- Embeds `RateLimiter.__init__` state: `delay` seconds and the `jitter`
flag (`scanner/utils/rate_limiter.py`). -/
structure RateLimiter where
  delay : ℚ
  jitter : Bool
deriving Repr, DecidableEq

/-- Embeds `RateLimiter.wait` (`rate_limiter.py` lines 43-62), returning the
slept duration in seconds. The function is total (the Python method never
raises and returns `None`); `multiplier` is the value that
`random.uniform(0.5, 2.0)` would return, passed as an oracle. -/
def RateLimiter.wait (l : RateLimiter) (multiplier : ℚ) : ℚ :=
  if l.delay ≤ 0 then 0
  else
    let actual := if l.jitter then l.delay * multiplier else l.delay
    actual

/-- Embeds `RateLimiter.from_preset` (`rate_limiter.py` lines 64-100):
`none` maps to no limiter, an unknown preset raises `ValueError`
(modelled as `Except.error`). -/
def RateLimiter.from_preset (mode : String) : Except String (Option RateLimiter) :=
  if mode = "stealth" then Except.ok (some ⟨1, true⟩)
  else if mode = "normal" then Except.ok (some ⟨5/100, false⟩)
  else if mode = "aggressive" then Except.ok (some ⟨1/100, false⟩)
  else if mode = "none" then Except.ok none
  else Except.error ("Unknown preset " ++ mode)

/-- Embeds the CLI argument record consumed by `scanner/modules.py`.
`delay = none` models an absent/`None` `args.delay`; `preset = none`
models `getattr(args, 'preset', 'normal')` falling back to the default;
`modules = []` models a missing or empty module selection. -/
structure Args where
  host : String
  ports : ℕ × ℕ
  timeout : ℚ
  delay : Option ℚ := none
  preset : Option String := none
  modules : List String := []
  no_verify : Bool := false
  ssl_port : ℕ := 443

/-- The warning text emitted by `create_rate_limiter` for a large scan
(`modules.py` lines 38-41), as a function of the port count. -/
def largeScanWarning (portCount : ℤ) : String :=
  "Large scan detected (" ++ toString portCount ++
    " ports). Enforcing minimal rate limiting (aggressive preset) for safety."

/-- Result of `create_rate_limiter`: the limiter (or `none`) together with
the warning-level log messages emitted while building it. -/
structure LimiterResult where
  limiter : Option RateLimiter
  warnings : List String
deriving Repr, DecidableEq

/-- Embeds `create_rate_limiter` (`scanner/modules.py` lines 12-44): an
explicit delay wins outright; otherwise the preset is consulted, and a
`none` preset on a span of more than 1000 ports is replaced by the
`aggressive` preset with a warning naming the port count. -/
def create_rate_limiter (args : Args) : Except String LimiterResult :=
  match args.delay with
  | some d => Except.ok ⟨some ⟨d, false⟩, []⟩
  | none =>
    let preset := args.preset.getD "normal"
    match RateLimiter.from_preset preset with
    | Except.error e => Except.error e
    | Except.ok (some l) => Except.ok ⟨some l, []⟩
    | Except.ok none =>
      let portCount : ℤ := (args.ports.2 : ℤ) - (args.ports.1 : ℤ) + 1
      if portCount > 1000 then
        match RateLimiter.from_preset "aggressive" with
        | Except.ok l => Except.ok ⟨l, [largeScanWarning portCount]⟩
        | Except.error e => Except.error e
      else
        Except.ok ⟨none, []⟩

/-- Embeds the `PortResult` dataclass (`scanner/models/ports.py` lines 5-12). -/
structure PortResult where
  port : ℕ
  status : String
  service : String := ""
  error : String := ""
deriving Repr, DecidableEq

/-- Embeds the `PortScanResults` container (`ports.py` lines 15-33). -/
structure PortScanResults where
  open_ports : List ℕ := []
  scan_results : List PortResult := []
deriving Repr, DecidableEq

/-- Embeds `PortScanResults.add_result` (`ports.py` lines 29-33). -/
def PortScanResults.add_result (rs : PortScanResults) (r : PortResult) : PortScanResults :=
  { scan_results := rs.scan_results ++ [r]
    open_ports := if r.status = "open" then rs.open_ports ++ [r.port] else rs.open_ports }

/-- Oracle for one `connect_ex` attempt inside a `with socket(...)` block
(`scanner/core/scanner.py` lines 49-70): either `connect_ex` returns an
error code (`0` = connected, non-zero = refused/timed out), or a
`socket.error` is raised with the given message. -/
inductive ConnectOutcome where
  | code (n : ℤ)
  | exn (msg : String)
deriving Repr, DecidableEq

/-- Embeds `PortScanner._scan_single_port` (`scanner/core/scanner.py`
lines 38-70). `svc` is the oracle for `socket.getservbyport(port)`:
`some name` when the well-known-service table has an entry, `none` when
the lookup raises `OSError`/`socket.error`. -/
def scan_single_port (port : ℕ) (conn : ConnectOutcome) (svc : Option String) : PortResult :=
  match conn with
  | ConnectOutcome.exn msg => { port := port, status := "error", error := msg }
  | ConnectOutcome.code n =>
    let status := if n = 0 then "open" else "closed"
    let service := if status = "open" then (match svc with
      | some s => s
      | none => "unknown") else ""
    { port := port, status := status
      service := if status = "open" then service else "" }

/-- The inclusive port list `range(start, end_ + 1)` scanned by
`PortScanner.scan` (`scanner.py` line 99). -/
def portRange (start endPort : ℕ) : List ℕ :=
  List.range' start (endPort + 1 - start)

/-- Embeds the scan loop of `PortScanner.scan` (`scanner.py` lines 96-103):
fold `add_result` over the per-port probes, starting from an empty
`PortScanResults`. Host resolution and the port-range parse happen before
this loop and are modelled upstream. -/
def portScannerScan (start endPort : ℕ) (conn : ℕ → ConnectOutcome)
    (svc : ℕ → Option String) : PortScanResults :=
  (portRange start endPort).foldl
    (fun rs p => rs.add_result (scan_single_port p (conn p) (svc p))) {}

/-- One observable step of a prober: a pacing `wait()` call or a network
attempt (TCP connect, HTTP GET, TLS connect). -/
inductive Event where
  | wait
  | tcpConnect (port : ℕ)
  | httpGet (port : ℕ)
  | tlsConnect (port : ℕ)
deriving Repr, DecidableEq

/-- An event is a network attempt when it is not a pacing wait. -/
def Event.isAttempt (e : Event) : Bool :=
  match e with
  | Event.wait => false
  | _ => true

/-- `pacedFrom prevWait tr` holds when every network attempt in `tr` is
immediately preceded by a `wait` event; `prevWait` records whether the
event just before `tr` was a wait. -/
def pacedFrom : Bool → List Event → Bool
  | _, [] => true
  | prevWait, e :: rest =>
    (if e.isAttempt then prevWait else true) && pacedFrom (e = Event.wait) rest

/-- A whole trace is paced when every attempt in it has a wait directly
before it (so the trace cannot start with an attempt). -/
def attemptsPaced (tr : List Event) : Bool :=
  pacedFrom false tr

/-- The trace prefix a prober emits for its pacing call: `wait()` when a
rate limiter is configured, nothing otherwise (`if self.rate_limiter:
self.rate_limiter.wait()`). -/
def waitEvents (rl : Option RateLimiter) : List Event :=
  match rl with
  | some _ => [Event.wait]
  | none => []

/-- Whether `pat` occurs as a contiguous substring of `l` (Python
`pat in s`, for non-empty `pat`). -/
def containsSub (pat : List Char) : List Char → Bool
  | [] => pat.isPrefixOf []
  | c :: rest => pat.isPrefixOf (c :: rest) || containsSub pat rest

/-- The part of `l` before the first occurrence of `pat` — Python
`s.split(pat)[0]` for a non-empty separator. -/
def beforeFirst (pat : List Char) : List Char → List Char
  | [] => []
  | c :: rest =>
    if pat.isPrefixOf (c :: rest) then [] else c :: beforeFirst pat rest

/-- Python `str.split(sep)` for a one-character separator, keeping empty
pieces. -/
def splitChar (sep : Char) : List Char → List (List Char)
  | [] => [[]]
  | c :: rest =>
    let r := splitChar sep rest
    if c = sep then [] :: r
    else
      match r with
      | h :: t => (c :: h) :: t
      | [] => [[c]]

/-- Lower-case every character of a string. -/
def lowerStr (s : String) : String :=
  String.mk (s.toList.map Char.toLower)

/-- Python substring test `pat in s` on strings. -/
def strContains (s pat : String) : Bool :=
  containsSub pat.toList s.toList

/-- Python `str.capitalize`: first character upper-cased, the rest
lower-cased. -/
def pyCapitalize (s : String) : String :=
  match s.toList with
  | [] => ""
  | c :: rest => String.mk (c.toUpper :: rest.map Char.toLower)

/-- Embeds `HTTPScanner._identify_web_server` (`scanner/core/http.py`
lines 15-39). -/
def identify_web_server (server_header : String) : String :=
  if server_header = "" then "Unknown"
  else
    let header := lowerStr server_header
    if strContains header "apache" then "Apache"
    else if strContains header "nginx" then "Nginx"
    else if strContains header "iis" || strContains header "microsoft" then "Microsoft IIS"
    else if strContains header "lighttpd" then "Lighttpd"
    else if strContains header "gunicorn" then "Gunicorn"
    else if strContains header "caddy" then "Caddy"
    else pyCapitalize (String.mk (beforeFirst ['/'] server_header.toList))

/-- Oracle for one `requests.get` call (`http.py` lines 64 and 83): either
a response arrives (status code plus the optional `Server` and
`Content-Type` headers), or a `requests.RequestException` is raised with
the given message (timeout, refusal, DNS failure, protocol violation). -/
inductive HttpOutcome where
  | response (status_code : ℕ) (server : Option String) (content_type : Option String)
  | exn (msg : String)
deriving Repr, DecidableEq

/-- `requests.Response.ok`: true exactly when `raise_for_status()` would
not raise, i.e. when the status code is outside 400-599. -/
def respOk (status_code : ℕ) : Bool :=
  !(400 ≤ status_code && status_code < 600)

/-- The error truncation `str(e).split(" (")[0]` of `http.py` line 90:
the part of the message before the first parenthesized suffix. -/
def truncateError (msg : String) : String :=
  String.mk (beforeFirst (" (".toList) msg.toList)

/-- The per-port record dict built by `HTTPScanner.scan` (`http.py`
lines 72-95). The success branch fills `status_code` and `content_type`
and leaves `error` absent; the exception branch fills `error`, sets
`server` to "N/A" and carries no status code or content type. -/
structure HttpRecord where
  port : ℕ
  status : String
  status_code : Option ℕ := none
  server : String
  content_type : Option String := none
  url : String
  error : Option String := none
deriving Repr, DecidableEq

/-- The probe URL `http://host:port/` (`http.py` line 60). -/
def httpUrl (host : String) (port : ℕ) : String :=
  "http://" ++ host ++ ":" ++ toString port ++ "/"

/-- The record `HTTPScanner.scan` appends for one port, given the oracle
outcome of its `requests.get` (`http.py` lines 62-95). -/
def httpPortRecord (host : String) (port : ℕ) (outcome : HttpOutcome) : HttpRecord :=
  match outcome with
  | HttpOutcome.response code server ctype =>
    let server_header := server.getD "Unknown"
    { port := port
      status := if respOk code then "open" else "closed"
      status_code := some code
      server := identify_web_server server_header
      content_type := some (ctype.getD "Unknown")
      url := httpUrl host port }
  | HttpOutcome.exn msg =>
    { port := port
      status := "closed"
      server := "N/A"
      error := some (truncateError msg)
      url := httpUrl host port }

/-- Embeds `HTTPScanResult` (`scanner/models/results.py` lines 21-34). -/
structure HTTPScanResult where
  open_ports : List ℕ := []
  scan_results : List HttpRecord := []
deriving Repr, DecidableEq

/-- Embeds the loop body accumulation of `HTTPScanner.scan` (`http.py`
lines 55-98) as a recursion over the port list, also emitting the event
trace: for each port, the pacing wait (when configured) followed by the
GET attempt; a port joins `open_ports` exactly when `resp.ok`. -/
def httpScanGo (rl : Option RateLimiter) (host : String)
    (oracle : ℕ → HttpOutcome) : List ℕ → List Event × HTTPScanResult
  | [] => ([], {})
  | p :: rest =>
    let tail := httpScanGo rl host oracle rest
    let record := httpPortRecord host p (oracle p)
    let opens := match oracle p with
      | HttpOutcome.response code _ _ => if respOk code then [p] else []
      | HttpOutcome.exn _ => []
    ( waitEvents rl ++ [Event.httpGet p] ++ tail.1
    , { open_ports := opens ++ tail.2.open_ports
        scan_results := record :: tail.2.scan_results } )

/-- Embeds `HTTPScanner.scan` (`http.py` lines 41-100): trace of events
paired with the result container. -/
def httpScan (rl : Option RateLimiter) (host : String) (ports : List ℕ)
    (oracle : ℕ → HttpOutcome) : List Event × HTTPScanResult :=
  httpScanGo rl host oracle ports

/-- A parsed certificate timestamp (the fields `datetime.strptime` fills
for the format `%b %d %H:%M:%S %Y %Z`, with the timezone fixed to UTC by
the `.replace(tzinfo=timezone.utc)` in `_parse_dt`). -/
structure CertDT where
  year : ℕ
  month : ℕ
  day : ℕ
  hour : ℕ
  minute : ℕ
  second : ℕ
deriving Repr, DecidableEq

/-- Numeric value of an ASCII digit. -/
def digitVal (c : Char) : ℕ :=
  c.toNat - 48

/-- The lowercase month abbreviations of `%b` (C locale). -/
def monthAbbrevs : List String :=
  ["jan", "feb", "mar", "apr", "may", "jun", "jul", "aug", "sep", "oct", "nov", "dec"]

/-- `%b`: case-insensitive month abbreviation, 1-based month number. -/
def parseMonth (t : String) : Option ℕ :=
  (monthAbbrevs.findIdx? (fun m => m = lowerStr t)).map (fun i => i + 1)

/-- `%d` per CPython `_strptime` (regex `3[01]|[12]\d|0[1-9]|[1-9]`):
one digit 1-9, or two digits with value 1-31. -/
def parseDay (t : String) : Option ℕ :=
  match t.toList with
  | [c] => if '1' ≤ c ∧ c ≤ '9' then some (digitVal c) else none
  | [c1, c2] =>
    if c1.isDigit ∧ c2.isDigit then
      let v := 10 * digitVal c1 + digitVal c2
      if 1 ≤ v ∧ v ≤ 31 then some v else none
    else none
  | _ => none

/-- `%H` (regex `2[0-3]|[0-1]\d|\d`): one digit, or two digits up to 23. -/
def parseHour (t : String) : Option ℕ :=
  match t.toList with
  | [c] => if c.isDigit then some (digitVal c) else none
  | [c1, c2] =>
    if c1.isDigit ∧ c2.isDigit then
      let v := 10 * digitVal c1 + digitVal c2
      if v ≤ 23 then some v else none
    else none
  | _ => none

/-- `%M` (regex `[0-5]\d|\d`): one digit, or two digits up to 59. -/
def parseMinute (t : String) : Option ℕ :=
  match t.toList with
  | [c] => if c.isDigit then some (digitVal c) else none
  | [c1, c2] =>
    if c1.isDigit ∧ c2.isDigit then
      let v := 10 * digitVal c1 + digitVal c2
      if v ≤ 59 then some v else none
    else none
  | _ => none

/-- `%S` (regex `6[01]|[0-5]\d|\d`): one digit, or two digits up to 61
(leap seconds allowed). -/
def parseSecond (t : String) : Option ℕ :=
  match t.toList with
  | [c] => if c.isDigit then some (digitVal c) else none
  | [c1, c2] =>
    if c1.isDigit ∧ c2.isDigit then
      let v := 10 * digitVal c1 + digitVal c2
      if v ≤ 61 then some v else none
    else none
  | _ => none

/-- `%Y`: exactly four digits. -/
def parseYear (t : String) : Option ℕ :=
  match t.toList with
  | [c1, c2, c3, c4] =>
    if c1.isDigit ∧ c2.isDigit ∧ c3.isDigit ∧ c4.isDigit then
      some (1000 * digitVal c1 + 100 * digitVal c2 + 10 * digitVal c3 + digitVal c4)
    else none
  | _ => none

/-- `%Z`: case-insensitive timezone name. CPython draws the accepted set
from `time.tzname` plus `utc`/`gmt`; the portable core `{gmt, utc}` is
modelled (certificate timestamps always carry `GMT`). -/
def zoneOk (t : String) : Bool :=
  lowerStr t = "gmt" || lowerStr t = "utc"

/-- `%H:%M:%S`: exactly three colon-separated fields. -/
def parseTime (t : String) : Option (ℕ × ℕ × ℕ) :=
  match splitChar ':' t.toList with
  | [h, m, s] =>
    match parseHour (String.mk h), parseMinute (String.mk m), parseSecond (String.mk s) with
    | some hv, some mv, some sv => some (hv, mv, sv)
    | _, _, _ => none
  | _ => none

/-- No leading and no trailing whitespace. -/
def noEdgeWs (l : List Char) : Bool :=
  match l with
  | [] => true
  | c :: _ =>
    !c.isWhitespace &&
      (match l.reverse with
      | [] => true
      | d :: _ => !d.isWhitespace)

/-- The whitespace-delimited fields of a string (empty pieces dropped,
so a field boundary is any non-empty whitespace run). -/
def wsFields (l : List Char) : List String :=
  ((splitChar ' ' (l.map (fun c => if c.isWhitespace then ' ' else c))).filter
    (fun t => t ≠ [])).map String.mk

/-- `datetime.strptime(s, "%b %d %H:%M:%S %Y %Z")` as an acceptance
function. CPython's `_strptime` compiles each literal whitespace in the
format to the regex `\s+`, so any non-empty run of whitespace separates
consecutive fields; the match is anchored at the start and must consume
the whole string, so leading or trailing whitespace is rejected. -/
def strptimeCert (s : String) : Option CertDT :=
  if noEdgeWs s.toList then
    match wsFields s.toList with
    | [b, d, t, y, z] =>
      match parseMonth b, parseDay d, parseTime t, parseYear y with
      | some mo, some dd, some (h, mi, se), some yy =>
        if zoneOk z then some ⟨yy, mo, dd, h, mi, se⟩ else none
      | _, _, _, _ => none
    | _ => none
  else none

/-- Python `s.replace("  ", " ")`: left-to-right, non-overlapping
replacement of each double space by a single space. -/
def pyReplaceGo : List Char → List Char
  | [] => []
  | [c] => [c]
  | c :: d :: rest =>
    if c = ' ' ∧ d = ' ' then ' ' :: pyReplaceGo rest
    else c :: pyReplaceGo (d :: rest)

/-- Python `s.replace("  ", " ")` on strings. -/
def pyReplaceDoubleSpace (s : String) : String :=
  String.mk (pyReplaceGo s.toList)

/-- Embeds `SSLScanner._parse_dt` (`scanner/core/ssl.py` lines 15-38):
try `strptime` on the value as-is, then on the value with double spaces
collapsed; a non-string input (`cert.get(...)` returned `None`) and a
twice-failed parse both yield `None` rather than an error. -/
def scan_parse_dt (s : Option String) : Option CertDT :=
  match s with
  | none => none
  | some str =>
    match strptimeCert str with
    | some dt => some dt
    | none => strptimeCert (pyReplaceDoubleSpace str)

/-- Days from 1970-01-01 to the given proleptic-Gregorian civil date
(standard era/day-of-year computation, floor divisions). -/
def daysFromCivil (y : ℤ) (m d : ℕ) : ℤ :=
  let yAdj : ℤ := if m ≤ 2 then y - 1 else y
  let era : ℤ := yAdj.fdiv 400
  let yoe : ℤ := yAdj - era * 400
  let mp : ℕ := if 2 < m then m - 3 else m + 9
  let doy : ℤ := ((153 * mp + 2) / 5 + d : ℕ) - 1
  let doe : ℤ := yoe * 365 + yoe.fdiv 4 - yoe.fdiv 100 + doy
  era * 146097 + doe - 719468

/-- Seconds from the epoch to a parsed UTC certificate timestamp. -/
def epochSeconds (dt : CertDT) : ℤ :=
  daysFromCivil dt.year dt.month dt.day * 86400 +
    dt.hour * 3600 + dt.minute * 60 + dt.second

/-- Two-digit zero padding. -/
def pad2 (n : ℕ) : String :=
  if n < 10 then "0" ++ toString n else toString n

/-- Four-digit zero padding. -/
def pad4 (n : ℕ) : String :=
  if n < 10 then "000" ++ toString n
  else if n < 100 then "00" ++ toString n
  else if n < 1000 then "0" ++ toString n
  else toString n

/-- `datetime.isoformat()` for a UTC timestamp with zero microseconds. -/
def isoformatUTC (dt : CertDT) : String :=
  pad4 dt.year ++ "-" ++ pad2 dt.month ++ "-" ++ pad2 dt.day ++ "T" ++
    pad2 dt.hour ++ ":" ++ pad2 dt.minute ++ ":" ++ pad2 dt.second ++ "+00:00"

/-- Following the spec's words, for comparison with the source-derived
parser (not translated from the source): the "two accepted textual
formats (single- and double-space day-of-month padding)" — the five
fields of `%b %d %H:%M:%S %Y %Z` joined by single spaces, with either
one or two spaces between the month and the day-of-month. -/
def specTwoFormats (s : String) : Bool :=
  match (splitChar ' ' s.toList).map String.mk with
  | [b, d, t, y, z] =>
    (parseMonth b).isSome && (parseDay d).isSome && (parseTime t).isSome &&
      (parseYear y).isSome && zoneOk z
  | [b, e, d, t, y, z] =>
    e = "" && (parseMonth b).isSome && (parseDay d).isSome && (parseTime t).isSome &&
      (parseYear y).isSome && zoneOk z
  | _ => false

/-- A peer certificate as returned by `ssock.getpeercert()`: subject and
issuer are sequences of relative-distinguished-name groups of key/value
pairs; the validity bounds are the raw strings (absent keys model
`cert.get(...)` returning `None`). -/
structure Cert where
  subject : List (List (String × String)) := []
  issuer : List (List (String × String)) := []
  notBefore : Option String := none
  notAfter : Option String := none
deriving Repr, DecidableEq

/-- Python dict assignment `out[k] = v` on an association list: replace
the value of an existing key in place, otherwise append. -/
def dictInsert (l : List (String × String)) (k v : String) : List (String × String) :=
  if l.any (fun p => p.1 = k) then
    l.map (fun p => if p.1 = k then (k, v) else p)
  else l ++ [(k, v)]

/-- Embeds `SSLScanner._flatten` (`scanner/core/ssl.py` lines 40-45):
fold every group's pairs into one mapping, later occurrences of a key
overwriting earlier ones. -/
def flattenName (name : List (List (String × String))) : List (String × String) :=
  name.foldl (fun acc group => group.foldl (fun a kv => dictInsert a kv.1 kv.2) acc) []

/-- Python `dict.get(k)`: the value bound to `k`, if any. -/
def dictGet (l : List (String × String)) (k : String) : Option String :=
  (l.find? (fun p => p.1 = k)).map (fun p => p.2)

/-- Embeds the `SSLScanResult` dataclass (`scanner/models/results.py`
lines 37-56). -/
structure SSLScanResult where
  ok : Bool := false
  issued_to : Option String := none
  issued_by : Option String := none
  valid_from : Option String := none
  valid_until : Option String := none
  days_left : Option ℤ := none
  expired : Bool := false
  error : Option String := none
deriving Repr, DecidableEq

/-- Oracle for the connection and handshake of `SSLScanner.scan`
(`ssl.py` lines 57-86): a `ssl.SSLError` with a message, any other
`OSError` with a message, or an established session whose
`getpeercert()` gave `none` (a `None`/empty dict) or a certificate. -/
inductive TlsOutcome where
  | sslError (msg : String)
  | osError (msg : String)
  | connected (cert : Option Cert)
deriving Repr, DecidableEq

/-- Embeds `SSLScanner.scan` (`scanner/core/ssl.py` lines 47-86) as a
total function: the pacing wait (when configured) and single connection
attempt as a trace, paired with the structured result. `now` is
`datetime.now(timezone.utc)` in epoch seconds; `(na - now).days` is the
floor of the difference in seconds divided by 86400, matching
`timedelta.days`. Every branch returns a result object; the Python
method never raises (`SSLError` and `OSError` are both caught). -/
def sslScan (rl : Option RateLimiter) (port : ℕ) (outcome : TlsOutcome)
    (now : ℤ) : List Event × SSLScanResult :=
  let tr := waitEvents rl ++ [Event.tlsConnect port]
  match outcome with
  | TlsOutcome.sslError msg =>
    (tr, { ok := false, error := some ("SSL error: " ++ msg) })
  | TlsOutcome.osError msg =>
    (tr, { ok := false, error := some ("Socket error: " ++ msg) })
  | TlsOutcome.connected none =>
    (tr, { ok := false, error := some "No certificate presented" })
  | TlsOutcome.connected (some cert) =>
    let subj := flattenName cert.subject
    let issu := flattenName cert.issuer
    let nb := scan_parse_dt cert.notBefore
    let na := scan_parse_dt cert.notAfter
    let days_left := na.map (fun d => (epochSeconds d - now).fdiv 86400)
    (tr,
      { ok := true
        issued_to := dictGet subj "commonName"
        issued_by := dictGet issu "commonName"
        valid_from := nb.map isoformatUTC
        valid_until := na.map isoformatUTC
        days_left := days_left
        expired := match days_left with
          | some d => decide (d < 0)
          | none => false })

/-- The trace a per-port prober emits: for each port in order, the pacing
wait (when a limiter is configured) immediately followed by that port's
network attempt. -/
def pacedTrace (rl : Option RateLimiter) (att : ℕ → Event) : List ℕ → List Event
  | [] => []
  | p :: rest => waitEvents rl ++ [att p] ++ pacedTrace rl att rest

/-- Modelled from the spec: `scanner/core/tcp.py` (class `TCPScanner`, the
TCP prober that `run_selected_modules` instantiates) is absent from the
source tree — only its callers and tests exist. Per the spec, its per-port
classification is that of `PortScanner._scan_single_port`, ports are
probed in ascending order, and "The Pacing Controller's `wait()` is
invoked before each connection attempt". -/
def tcpScannerScan (rl : Option RateLimiter) (start endPort : ℕ)
    (conn : ℕ → ConnectOutcome) (svc : ℕ → Option String) :
    List Event × PortScanResults :=
  (pacedTrace rl Event.tcpConnect (portRange start endPort),
   portScannerScan start endPort conn svc)

/-- One module's entry in the result mapping of `run_selected_modules`. -/
inductive ModuleResult where
  | tcp (r : PortScanResults)
  | http (r : HTTPScanResult)
  | ssl (r : SSLScanResult)
deriving Repr, DecidableEq

/-- The network/clock oracles one orchestrator run consumes. -/
structure ScanEnv where
  conn : ℕ → ConnectOutcome
  svc : ℕ → Option String
  httpOut : ℕ → HttpOutcome
  tlsOut : TlsOutcome
  now : ℤ

/-- Embeds `run_selected_modules` (`scanner/modules.py` lines 47-73) as
the insertion-ordered result mapping: with no module selection only the
TCP prober runs; otherwise the selection is checked for `tcp`, then
`http`, then `ssl`, in that fixed order. In this embedding a module's
scan function is applied exactly when its key is inserted, so key
presence and prober invocation coincide. -/
def run_selected_modules (args : Args) (env : ScanEnv) :
    Except String (List (String × ModuleResult)) :=
  match create_rate_limiter args with
  | Except.error e => Except.error e
  | Except.ok lr =>
    let rl := lr.limiter
    let start := args.ports.1
    let endPort := args.ports.2
    if args.modules = [] then
      Except.ok
        [("tcp", ModuleResult.tcp (tcpScannerScan rl start endPort env.conn env.svc).2)]
    else
      Except.ok (
        (if "tcp" ∈ args.modules then
          [("tcp", ModuleResult.tcp (tcpScannerScan rl start endPort env.conn env.svc).2)]
        else []) ++
        (if "http" ∈ args.modules then
          [("http",
            ModuleResult.http (httpScan rl args.host (portRange start endPort) env.httpOut).2)]
        else []) ++
        (if "ssl" ∈ args.modules then
          [("ssl", ModuleResult.ssl (sslScan rl args.ssl_port env.tlsOut env.now).2)]
        else []))

theorem from_preset_none : RateLimiter.from_preset "none" = Except.ok none := rfl

theorem from_preset_aggressive :
    RateLimiter.from_preset "aggressive" = Except.ok (some ⟨1/100, false⟩) := rfl

theorem largeScanWarning_split (n : ℤ) :
    largeScanWarning n =
      "Large scan detected (" ++ toString n ++
        " ports). Enforcing minimal rate limiting (aggressive preset) for safety." := rfl

/-- Claim C1: with preset `none` and no explicit delay, a span of at most
1000 ports leaves pacing unrestricted; a span of 1001 or more is
substituted by the `aggressive` preset (delay 0.01s) together with a
warning that mentions the port count; an explicit numeric delay always
takes precedence over any preset and is never subject to the
substitution. -/
theorem C1_pacing_safety_override (args : Args)
    (hp : args.preset = some "none") (hd : args.delay = none) :
    ((args.ports.2 : ℤ) - (args.ports.1 : ℤ) + 1 ≤ 1000 →
      create_rate_limiter args = Except.ok ⟨none, []⟩) ∧
    (1001 ≤ (args.ports.2 : ℤ) - (args.ports.1 : ℤ) + 1 →
      create_rate_limiter args =
        Except.ok ⟨some ⟨1/100, false⟩,
          [largeScanWarning ((args.ports.2 : ℤ) - (args.ports.1 : ℤ) + 1)]⟩ ∧
      ∃ before after : String,
        largeScanWarning ((args.ports.2 : ℤ) - (args.ports.1 : ℤ) + 1) =
          before ++ toString ((args.ports.2 : ℤ) - (args.ports.1 : ℤ) + 1) ++ after) ∧
    (∀ (a : Args) (d : ℚ), a.delay = some d →
      create_rate_limiter a = Except.ok ⟨some ⟨d, false⟩, []⟩) := by
  refine ⟨?_, ?_, ?_⟩
  · intro h
    simp only [create_rate_limiter, hd, hp, Option.getD_some, from_preset_none]
    rw [if_neg (by omega)]
  · intro h
    refine ⟨?_, "Large scan detected (",
      " ports). Enforcing minimal rate limiting (aggressive preset) for safety.", rfl⟩
    simp only [create_rate_limiter, hd, hp, Option.getD_some, from_preset_none]
    rw [if_pos (by omega)]
    simp only [from_preset_aggressive]
  · intro a d h
    simp only [create_rate_limiter, h]

/-- Witness for C1 at a concrete input: the boundary span of 1001 ports
with preset `none` and no delay yields the aggressive delay plus the
warning. -/
theorem C1_pacing_safety_override_witness :
    create_rate_limiter { host := "scanme", ports := (1, 1001), timeout := 1, preset := some "none" } =
      Except.ok ⟨some ⟨1/100, false⟩, [largeScanWarning 1001]⟩ := by
  have h := (C1_pacing_safety_override
    { host := "scanme", ports := (1, 1001), timeout := 1, preset := some "none" }
    rfl rfl).2.1 (by norm_num)
  have h2 := h.1
  norm_num at h2
  exact h2

theorem isAttempt_eq_false (e : Event) : e.isAttempt = false ↔ e = Event.wait := by
  cases e <;> simp [Event.isAttempt]

theorem pacedFrom_pacedTrace (l : RateLimiter) (att : ℕ → Event)
    (h : ∀ p, att p ≠ Event.wait) (ports : List ℕ) :
    ∀ b, pacedFrom b (pacedTrace (some l) att ports) = true := by
  induction ports with
  | nil => intro b; rfl
  | cons p rest ih =>
    intro b
    rcases he : att p with _ | q | q | q
    · exact absurd he (h p)
    all_goals
      simp only [pacedTrace, waitEvents, he, List.cons_append, List.singleton_append,
        List.nil_append]
      simp [pacedFrom, Event.isAttempt, ih false]

theorem httpScanGo_trace (rl : Option RateLimiter) (host : String)
    (oracle : ℕ → HttpOutcome) (ports : List ℕ) :
    (httpScanGo rl host oracle ports).1 = pacedTrace rl Event.httpGet ports := by
  induction ports with
  | nil => rfl
  | cons p rest ih => simp [httpScanGo, pacedTrace, ih]

theorem sslScan_trace (rl : Option RateLimiter) (port : ℕ) (outcome : TlsOutcome)
    (now : ℤ) :
    (sslScan rl port outcome now).1 = waitEvents rl ++ [Event.tlsConnect port] := by
  rcases outcome with msg | msg | c
  · rfl
  · rfl
  · rcases c with _ | cert <;> rfl

/-- Claim C2: with a configured pacing controller, every prober invokes
`wait()` immediately before each network attempt — before every TCP
connection attempt (spec-modelled `TCPScanner`), before every HTTP GET,
and before the single TLS connection. -/
theorem C2_wait_before_each_attempt (l : RateLimiter) (start endPort : ℕ)
    (conn : ℕ → ConnectOutcome) (svc : ℕ → Option String) (host : String)
    (ports : List ℕ) (httpOut : ℕ → HttpOutcome) (port : ℕ)
    (tls : TlsOutcome) (now : ℤ) :
    attemptsPaced (tcpScannerScan (some l) start endPort conn svc).1 = true ∧
    attemptsPaced (httpScan (some l) host ports httpOut).1 = true ∧
    attemptsPaced (sslScan (some l) port tls now).1 = true := by
  refine ⟨?_, ?_, ?_⟩
  · exact pacedFrom_pacedTrace l Event.tcpConnect (fun p => by simp) _ false
  · rw [attemptsPaced, httpScan, httpScanGo_trace]
    exact pacedFrom_pacedTrace l Event.httpGet (fun p => by simp) _ false
  · rw [attemptsPaced, sslScan_trace]
    rfl

/-- Claim C3: a single `wait()` sleeps zero when `delay <= 0` regardless
of jitter, exactly `delay` when jitter is off and `delay > 0`, and
`delay * m` for the sampled multiplier `m` from `[0.5, 2.0]` when jitter
is on and `delay > 0`; the embedding is a total function (the Python
method never raises and returns `None`). -/
theorem C3_wait_duration (l : RateLimiter) (m : ℚ) :
    (l.delay ≤ 0 → l.wait m = 0) ∧
    (0 < l.delay → l.jitter = false → l.wait m = l.delay) ∧
    (0 < l.delay → l.jitter = true → 1/2 ≤ m → m ≤ 2 → l.wait m = l.delay * m) := by
  refine ⟨fun h => ?_, fun h hj => ?_, fun h hj h1 h2 => ?_⟩
  · simp [RateLimiter.wait, h]
  · simp [RateLimiter.wait, not_le.mpr h, hj]
  · simp [RateLimiter.wait, not_le.mpr h, hj]

/-- Witness for C3 at concrete inputs: delay 0.1 with jitter and
multiplier 1 sleeps 0.1 * 1; delay 0 sleeps 0. -/
theorem C3_wait_duration_witness :
    (RateLimiter.mk (1/10) true).wait 1 = 1/10 * 1 ∧
    (RateLimiter.mk 0 true).wait 1 = 0 := by
  constructor
  · exact (C3_wait_duration ⟨1/10, true⟩ 1).2.2 (by norm_num) rfl (by norm_num) (by norm_num)
  · exact (C3_wait_duration ⟨0, true⟩ 1).1 le_rfl

/-- Claim C4: a successful connect yields `status=open` with the
well-known-service name if found, else the string `"unknown"`; a
non-zero `connect_ex` code (timeout or refusal) yields `status=closed`
with an empty service field; a raised socket error yields `status=error`
carrying the underlying message. -/
theorem C4_tcp_port_classification (port : ℕ) (svc : Option String) (n : ℤ)
    (msg : String) :
    scan_single_port port (ConnectOutcome.code 0) svc =
      { port := port, status := "open", service := svc.getD "unknown" } ∧
    (n ≠ 0 → scan_single_port port (ConnectOutcome.code n) svc =
      { port := port, status := "closed" }) ∧
    scan_single_port port (ConnectOutcome.exn msg) svc =
      { port := port, status := "error", error := msg } := by
  refine ⟨?_, fun h => ?_, rfl⟩
  · cases svc <;> rfl
  · simp [scan_single_port, h]

/-- Witness for C4 at a concrete input: a refused connection on port 80
is recorded closed with no service. -/
theorem C4_tcp_port_classification_witness :
    scan_single_port 80 (ConnectOutcome.code 111) (some "http") =
      { port := 80, status := "closed" } :=
  (C4_tcp_port_classification 80 (some "http") 111 "").2.1 (by decide)

/-- Counterexample to claim C5 as stated: a received response with status
code 103 lies outside the 2xx-3xx range, yet the code classifies the
port open (`requests.Response.ok` is true for every code outside
400-599), so "open exactly when the status code lies in 2xx-3xx" fails. -/
theorem C5_counterexample :
    (httpPortRecord "localhost" 80 (HttpOutcome.response 103 none none)).status = "open" ∧
    ¬ (200 ≤ 103 ∧ 103 ≤ 399) :=
  ⟨rfl, by decide⟩

/-- Claim C5 (amended): a received HTTP response is classified open
exactly when its status code did not signal a client or server error
(status outside 400-599), and closed otherwise; on a transport-level
failure the record has status closed, carries the error message
truncated before any parenthesized socket-errno suffix, and has no
status code. -/
theorem C5_http_classification (host : String) (port : ℕ) (code : ℕ)
    (server ctype : Option String) (msg : String) :
    ((httpPortRecord host port (HttpOutcome.response code server ctype)).status =
      if 400 ≤ code ∧ code < 600 then "closed" else "open") ∧
    (httpPortRecord host port (HttpOutcome.response code server ctype)).status_code =
      some code ∧
    (httpPortRecord host port (HttpOutcome.response code server ctype)).error = none ∧
    (httpPortRecord host port (HttpOutcome.exn msg)).status = "closed" ∧
    (httpPortRecord host port (HttpOutcome.exn msg)).error = some (truncateError msg) ∧
    (httpPortRecord host port (HttpOutcome.exn msg)).status_code = none := by
  refine ⟨?_, rfl, rfl, rfl, rfl, rfl⟩
  by_cases h : 400 ≤ code ∧ code < 600
  · have hr : respOk code = false := by
      simp only [respOk, Bool.not_eq_false', Bool.and_eq_true, decide_eq_true_eq]
      exact h
    simp [httpPortRecord, hr, if_pos h]
  · have hr : respOk code = true := by
      simp only [respOk, Bool.not_eq_true', Bool.and_eq_false_iff, decide_eq_false_iff_not]
      tauto
    simp [httpPortRecord, hr, if_neg h]

/-- Claim C6: the TLS prober always returns a result object (the
embedding is a total function; both `ssl.SSLError` and `OSError` are
caught), and its failures fall into three distinguishable categories: no
peer certificate, a TLS-layer error prefixed "SSL error:", and any other
socket-level error prefixed "Socket error:". -/
theorem C6_tls_failure_taxonomy (rl : Option RateLimiter) (port : ℕ) (now : ℤ)
    (msg : String) (cert : Option Cert) :
    (sslScan rl port (TlsOutcome.connected none) now).2 =
      { ok := false, error := some "No certificate presented" } ∧
    (sslScan rl port (TlsOutcome.sslError msg) now).2 =
      { ok := false, error := some ("SSL error: " ++ msg) } ∧
    (sslScan rl port (TlsOutcome.osError msg) now).2 =
      { ok := false, error := some ("Socket error: " ++ msg) } ∧
    (sslScan rl port (TlsOutcome.connected cert) now).2.ok = cert.isSome := by
  refine ⟨rfl, rfl, rfl, ?_⟩
  rcases cert with _ | c <;> rfl

/-- Counterexample to claim C7 as stated: the value
`"Jan   1 00:00:00 2024 GMT"` (three spaces) matches neither of the two
textual formats (single- and double-space day-of-month padding), yet the
parser yields a timestamp rather than an absent one: CPython `strptime`
compiles format whitespace to `\s+`. -/
theorem C7_counterexample :
    scan_parse_dt (some "Jan   1 00:00:00 2024 GMT") =
      some { year := 2024, month := 1, day := 1, hour := 0, minute := 0, second := 0 } ∧
    specTwoFormats "Jan   1 00:00:00 2024 GMT" = false := by
  constructor
  · decide
  · decide

/-- Claim C7 (amended): the timestamp parser accepts the two textual
formats of the spec (and, more generally, any non-empty whitespace run
between fields, per CPython `strptime`); a value it accepts under
neither attempt yields an absent timestamp rather than a failure;
`days_left` is the floor day difference between `notAfter` and the
current UTC time (absent when `notAfter` is unparseable); and `expired`
is true exactly when `days_left` is known and negative. -/
theorem C7_certificate_dates (rl : Option RateLimiter) (port : ℕ) (now : ℤ)
    (cert : Cert) (dt : CertDT) (outcome : TlsOutcome) :
    (scan_parse_dt (some "Jan  1 00:00:00 2024 GMT") =
        some { year := 2024, month := 1, day := 1, hour := 0, minute := 0, second := 0 } ∧
      scan_parse_dt (some "Dec 31 23:59:59 2025 GMT") =
        some { year := 2025, month := 12, day := 31, hour := 23, minute := 59, second := 59 }) ∧
    (scan_parse_dt cert.notAfter = none →
      (sslScan rl port (TlsOutcome.connected (some cert)) now).2.valid_until = none ∧
      (sslScan rl port (TlsOutcome.connected (some cert)) now).2.days_left = none ∧
      (sslScan rl port (TlsOutcome.connected (some cert)) now).2.expired = false ∧
      (sslScan rl port (TlsOutcome.connected (some cert)) now).2.ok = true) ∧
    (scan_parse_dt cert.notAfter = some dt →
      (sslScan rl port (TlsOutcome.connected (some cert)) now).2.valid_until =
        some (isoformatUTC dt) ∧
      (sslScan rl port (TlsOutcome.connected (some cert)) now).2.days_left =
        some ((epochSeconds dt - now).fdiv 86400)) ∧
    ((sslScan rl port outcome now).2.expired = true ↔
      ∃ d, (sslScan rl port outcome now).2.days_left = some d ∧ d < 0) := by
  refine ⟨⟨by decide, by decide⟩, fun h => ?_, fun h => ?_, ?_⟩
  · simp [sslScan, h]
  · simp [sslScan, h]
  · rcases outcome with msg | msg | c
    · simp [sslScan]
    · simp [sslScan]
    · rcases c with _ | cert2
      · simp [sslScan]
      · rcases hna : scan_parse_dt cert2.notAfter with _ | dt2 <;>
          simp [sslScan, hna]

/-- Witness for C7 at a concrete input: a certificate expiring at the
end of 2025 seen from the epoch has 20453 days left. -/
theorem C7_certificate_dates_witness :
    (sslScan none 443 (TlsOutcome.connected (some { notAfter := some "Dec 31 23:59:59 2025 GMT" })) 0).2.days_left = some 20453 ∧
    (sslScan none 443 (TlsOutcome.connected (some { notAfter := some "Dec 31 23:59:59 2025 GMT" })) 0).2.valid_until = some "2025-12-31T23:59:59+00:00" := by
  have h := (C7_certificate_dates none 443 0
    { notAfter := some "Dec 31 23:59:59 2025 GMT" }
    { year := 2025, month := 12, day := 31, hour := 23, minute := 59, second := 59 }
    (TlsOutcome.osError "unused")).2.2.1 (by decide)
  refine ⟨?_, ?_⟩
  · rw [h.2]; decide
  · rw [h.1]; decide

theorem add_result_foldl (l : List PortResult) (init : PortScanResults) :
    l.foldl PortScanResults.add_result init =
      { open_ports := init.open_ports ++
          ((l.filter fun r => r.status = "open").map fun r => r.port)
        scan_results := init.scan_results ++ l } := by
  induction l generalizing init with
  | nil => simp
  | cons r rest ih =>
    rw [List.foldl_cons, ih]
    by_cases h : r.status = "open" <;>
      simp [PortScanResults.add_result, List.filter_cons, h]

theorem portScannerScan_eq (start endPort : ℕ) (conn : ℕ → ConnectOutcome)
    (svc : ℕ → Option String) :
    portScannerScan start endPort conn svc =
      ((portRange start endPort).map
        (fun p => scan_single_port p (conn p) (svc p))).foldl
        PortScanResults.add_result {} := by
  rw [portScannerScan, List.foldl_map]

/-- Claim C8: for a completed TCP or HTTP module run, `open_ports` is
exactly the list of ports whose detailed entry has status open, in scan
order. -/
theorem C8_open_ports_match_status (start endPort : ℕ) (conn : ℕ → ConnectOutcome)
    (svc : ℕ → Option String) (rl : Option RateLimiter) (host : String)
    (ports : List ℕ) (oracle : ℕ → HttpOutcome) :
    (portScannerScan start endPort conn svc).open_ports =
      (((portScannerScan start endPort conn svc).scan_results.filter
        fun r => r.status = "open").map fun r => r.port) ∧
    (httpScan rl host ports oracle).2.open_ports =
      (((httpScan rl host ports oracle).2.scan_results.filter
        fun r => r.status = "open").map fun r => r.port) := by
  constructor
  · rw [portScannerScan_eq, add_result_foldl]
    simp
  · induction ports with
    | nil => rfl
    | cons p rest ih =>
      have ih2 : (httpScanGo rl host oracle rest).2.open_ports =
          (((httpScanGo rl host oracle rest).2.scan_results.filter
            fun r => r.status = "open").map fun r => r.port) := ih
      rcases ho : oracle p with ⟨code, server, ctype⟩ | msg
      · rcases hr : respOk code with _ | _ <;>
          simp [httpScan, httpScanGo, httpPortRecord, ho, hr, List.filter_cons, ih2]
      · simp [httpScan, httpScanGo, httpPortRecord, ho, List.filter_cons, ih2]

/-- Counterexample to claim C9 as stated: an open port whose well-known
service lookup fails carries the service string "unknown", not the empty
string, so "service is empty whenever the service is unknown" fails. -/
theorem C9_counterexample :
    (scan_single_port 80 (ConnectOutcome.code 0) none).service = "unknown" ∧
    (scan_single_port 80 (ConnectOutcome.code 0) none).service ≠ "" := by
  constructor
  · rfl
  · decide

/-- Claim C9 (amended): the service field is the empty string whenever
the port is not open (status closed or error); for an open port with a
failed lookup it is the string "unknown". -/
theorem C9_service_field (port : ℕ) (conn : ConnectOutcome) (svc : Option String) :
    ((scan_single_port port conn svc).status ≠ "open" →
      (scan_single_port port conn svc).service = "") ∧
    ((scan_single_port port conn svc).status = "open" → svc = none →
      (scan_single_port port conn svc).service = "unknown") := by
  rcases conn with n | msg
  · by_cases h : n = 0
    · subst h
      refine ⟨fun hs => absurd rfl hs, fun _ hsvc => ?_⟩
      subst hsvc
      rfl
    · constructor
      · intro _
        simp [scan_single_port, h]
      · intro hs
        have hc : (scan_single_port port (ConnectOutcome.code n) svc).status = "closed" := by
          simp [scan_single_port, h]
        rw [hc] at hs
        exact absurd hs (by decide)
  · constructor
    · intro _
      rfl
    · intro hs
      have hc : (scan_single_port port (ConnectOutcome.exn msg) svc).status = "error" := rfl
      rw [hc] at hs
      exact absurd hs (by decide)

/-- Witness for C9 at a concrete input: a closed port has an empty
service field. -/
theorem C9_service_field_witness :
    (scan_single_port 80 (ConnectOutcome.code 111) (some "http")).service = "" :=
  (C9_service_field 80 (ConnectOutcome.code 111) (some "http")).1 (by decide)

/-- Claim C10: with a non-empty module selection, the report holds
exactly the selected modules among tcp, http, ssl, inserted in that
fixed order regardless of the selection's own order; unselected modules
are never invoked and contribute no key (in this embedding a module's
scan function is applied exactly when its key is inserted). -/
theorem C10_module_order (args : Args) (env : ScanEnv) (lr : LimiterResult)
    (hok : create_rate_limiter args = Except.ok lr) (hne : args.modules ≠ []) :
    (run_selected_modules args env).map (fun report => report.map Prod.fst) =
      Except.ok (["tcp", "http", "ssl"].filter (fun m => m ∈ args.modules)) := by
  simp only [run_selected_modules, hok]
  rw [if_neg hne]
  by_cases h1 : "tcp" ∈ args.modules <;> by_cases h2 : "http" ∈ args.modules <;>
    by_cases h3 : "ssl" ∈ args.modules <;>
    simp [Except.map, h1, h2, h3, List.filter_cons]

/-- Witness for C10 at a concrete input: selecting `["ssl", "tcp"]`
produces exactly the keys tcp then ssl, in the fixed order. -/
theorem C10_module_order_witness :
    (run_selected_modules { host := "h", ports := (1, 3), timeout := 1, modules := ["ssl", "tcp"] } ⟨fun _ => ConnectOutcome.code 1, fun _ => none, fun _ => HttpOutcome.exn "e", TlsOutcome.osError "e", 0⟩).map
      (fun report => report.map Prod.fst) = Except.ok ["tcp", "ssl"] := by
  have h := C10_module_order
    { host := "h", ports := (1, 3), timeout := 1, modules := ["ssl", "tcp"] }
    ⟨fun _ => ConnectOutcome.code 1, fun _ => none, fun _ => HttpOutcome.exn "e", TlsOutcome.osError "e", 0⟩
    ⟨some ⟨5/100, false⟩, []⟩ rfl (by decide)
  rw [h]
  rfl

end Sentinel
